import Mathlib

/-!
Shallow embedding of the kyclark/lebauer-testing repository.

The repository holds two command-line utilities:
  * finder.py (WordFinder): get_args, main and the pure function
    find_words(word_length, fhs) that scans every whitespace-delimited
    token of every line of every source, strips non-ASCII-letter characters
    with a regex substitution, and keeps the cleaned token when its length
    equals word_length.
  * hello.py (Greeter): prints the greeting line; its code is not present
    in the sources here (only its tests), so it is modelled from the spec.

A text source (an open file handle in Python) is modelled as its list of
lines (List String); iterating a handle yields its lines in order.
-/

/-- Character class of ASCII letters, the class kept by the regex in
find_words. -/
def isAsciiLetter (c : Char) : Bool :=
  ('a' ≤ c && c ≤ 'z') || ('A' ≤ c && c ≤ 'Z')

/-- Function clean of find_words, a regex substitution deleting every
character that is not an ASCII letter, keeping case and relative order of
the remaining characters. -/
def clean (s : String) : String :=
  String.mk (s.data.filter isAsciiLetter)

/-- Whitespace recognised by the Python string split method on ASCII text:
space, tab, newline, vertical tab, form feed, carriage return. -/
def isPySpace (c : Char) : Bool :=
  c == ' ' || c == '\t' || c == '\n' || c == '\x0b' || c == '\x0c' || c == '\r'

/-- Helper for splitWs; the accumulator holds the current token reversed. -/
def splitWsAux : List Char → List Char → List String
  | [], acc => if acc = [] then [] else [String.mk acc.reverse]
  | c :: rest, acc =>
    if isPySpace c then
      if acc = [] then splitWsAux rest []
      else String.mk acc.reverse :: splitWsAux rest []
    else splitWsAux rest (c :: acc)

/-- Splitting a line the way the argument-less Python split method does:
split on runs of whitespace, producing no empty tokens. -/
def splitWs (line : String) : List String :=
  splitWsAux line.data []

/-- Predicate accept of find_words: the length of the word equals the target.
The Python length of a string is a non-negative integer compared against the
(possibly negative) target integer. -/
def accept (word_length : Int) (word : String) : Bool :=
  (word.length : Int) == word_length

/-- Matches one line contributes in find_words: the cleaned tokens of the
line that the accept predicate keeps, in token order. -/
def lineMatches (word_length : Int) (line : String) : List String :=
  ((splitWs line).map clean).filter (accept word_length)

/-- Function find_words of finder.py: the imperative loop over sources and
lines, growing the mutable words list by extending it with each line's
filtered matches. -/
def find_words (word_length : Int) (fhs : List (List String)) : List String :=
  fhs.foldl
    (fun words fh =>
      fh.foldl (fun words line => words ++ lineMatches word_length line) words)
    []

/-- Discovery order as the spec describes it: source order, then line order,
then token order within a line, with no deduplication. Stated with flatMap,
which concatenates per-source (and per-line) results in order. -/
def discoveryOrder (word_length : Int) (fhs : List (List String)) : List String :=
  fhs.flatMap fun fh => fh.flatMap fun line => lineMatches word_length line

/-- Length validation in get_args: a negative value triggers the error path,
which prints a usage message followed by the given text and exits with a
non-zero status; an accepted value is returned in the Args tuple. -/
def get_args_len (l : Int) : Except String Int :=
  if l < 0 then Except.error ("--len \"" ++ toString l ++ "\" must be > 0")
  else Except.ok l

/-- Observable outcome of one program run: its exit code and what it prints. -/
structure ProgResult where
  exitCode : Nat
  output : String
deriving DecidableEq, Repr

/-- Python format spec with field width 3 used for the listing index: the
number right-aligned in a field of minimum width 3, space-padded on the
left. -/
def pad3 (i : Nat) : String :=
  String.mk (List.replicate (3 - (toString i).length) ' ') ++ toString i

/-- One line of the listing printed by main: the padded index, a colon and a
space, then the word. -/
def listingLine (i : Nat) (w : String) : String :=
  pad3 i ++ ": " ++ w

/-- Full listing main prints: lines numbered from 1, joined by newlines. -/
def listing (words : List String) : String :=
  String.intercalate "\n" ((List.enumFrom 1 words).map fun p => listingLine p.1 p.2)

/-- Function main of finder.py after argument parsing: when find_words
returns a non-empty list it is printed as a numbered listing and the process
exits 0; otherwise sys.exit prints the no-words message and exits with
code 1. -/
def finderMain (word_length : Int) (fhs : List (List String)) : ProgResult :=
  let words := find_words word_length fhs
  if words = [] then
    ⟨1, "Found no words of length " ++ toString word_length ++ "!"⟩
  else
    ⟨0, listing words⟩

/-- Modelled from the spec: hello.py itself is absent from the sources (only
its tests are present). Spec 4.1: given a name string, produce the greeting
line; no error conditions; exit code 0; pure function of the single name
input. -/
def helloRun (name : String) : ProgResult :=
  ⟨0, "Hello, " ++ name ++ "!"⟩

/-- Modelled from the spec: the Greeter display name defaults to World. -/
def helloDefault : String := "World"

/-- Sentence used by the unit tests of find_words. -/
def foxLine : String := "The quick brown fox jumps over the lazy dog."

/-- Folding append of per-element results over a list, from any accumulator,
is the accumulator followed by the concatenation of all the results. -/
theorem foldl_append_flatMap {α β : Type} (f : α → List β) (l : List α)
    (acc : List β) :
    l.foldl (fun ws a => ws ++ f a) acc = acc ++ l.flatMap f := by
  induction l generalizing acc with
  | nil => simp
  | cons a t ih => simp [List.foldl, ih, List.append_assoc]

/-- Imperative accumulation in find_words equals the nested concatenation of
per-line matches. -/
theorem find_words_eq (L : Int) (fhs : List (List String)) :
    find_words L fhs = fhs.flatMap fun fh => fh.flatMap (lineMatches L) := by
  have hinner : (fun (words : List String) (fh : List String) =>
      fh.foldl (fun words line => words ++ lineMatches L line) words)
      = fun words fh => words ++ fh.flatMap (lineMatches L) := by
    funext words fh
    exact foldl_append_flatMap (lineMatches L) fh words
  unfold find_words
  rw [hinner, foldl_append_flatMap (fun fh => fh.flatMap (lineMatches L)) fhs []]
  simp

/-- C1: for every non-negative target length L and every list of sources,
every string returned by find_words has length exactly L. -/
theorem C1_result_length (L : Nat) (fhs : List (List String)) (w : String)
    (hw : w ∈ find_words (L : Int) fhs) : w.length = L := by
  rw [find_words_eq] at hw
  rw [List.mem_flatMap] at hw
  obtain ⟨fh, -, hw⟩ := hw
  rw [List.mem_flatMap] at hw
  obtain ⟨line, -, hw⟩ := hw
  simp only [lineMatches] at hw
  have h := (List.mem_filter.mp hw).2
  simp only [accept, beq_iff_eq] at h
  exact_mod_cast h

/-- Witness for C1: on the fox sentence at target length 3, the returned
string "The" has length 3. -/
theorem C1_result_length_witness :
    "The" ∈ find_words ((3 : Nat) : Int) [[foxLine]] ∧ "The".length = 3 :=
  ⟨by decide, C1_result_length 3 [[foxLine]] "The" (by decide)⟩

/-- C2: the result of find_words lists matches in discovery order — source
order, then line order, then token order within a line — with no
deduplication: it equals the flat in-order concatenation discoveryOrder. -/
theorem C2_discovery_order (L : Int) (fhs : List (List String)) :
    find_words L fhs = discoveryOrder L fhs :=
  find_words_eq L fhs

/-- C3: on the fox sentence, find_words returns the four three-letter words
for length 3, the two four-letter words for length 4, and the empty list for
lengths 1 and 6. -/
theorem C3_fox_examples :
    find_words 3 [[foxLine]] = ["The", "fox", "the", "dog"] ∧
    find_words 4 [[foxLine]] = ["over", "lazy"] ∧
    find_words 1 [[foxLine]] = [] ∧
    find_words 6 [[foxLine]] = [] :=
  ⟨by decide, by decide, by decide, by decide⟩

/-- C4: the argument layer rejects the length with the error text containing
the offending value and the must-be-positive wording exactly when the length
is negative, and accepts every non-negative length, 0 included. -/
theorem C4_len_boundary (l : Int) :
    (l < 0 → get_args_len l =
      Except.error ("--len \"" ++ toString l ++ "\" must be > 0")) ∧
    (0 ≤ l → get_args_len l = Except.ok l) := by
  constructor
  · intro h; simp [get_args_len, h]
  · intro h; simp [get_args_len, show ¬ l < 0 from not_lt.mpr h]

/-- Witness for C4: the value -5 is rejected with the exact message and the
value 0 is accepted. -/
theorem C4_len_boundary_witness :
    get_args_len (-5) = Except.error "--len \"-5\" must be > 0" ∧
    get_args_len 0 = Except.ok 0 :=
  ⟨((C4_len_boundary (-5)).1 (by decide)).trans (congrArg Except.error (by decide)),
   (C4_len_boundary 0).2 (by decide)⟩

/-- C5: at target length 0 a token is matched exactly when it contains no
ASCII letter, the appended cleaned string then being empty, and the empty
string occurs in a find_words result only when the target length is 0. -/
theorem C5_zero_length :
    (∀ t : String, accept 0 (clean t) = true ↔
      ∀ c ∈ t.data, isAsciiLetter c = false) ∧
    (∀ t : String, accept 0 (clean t) = true → clean t = "") ∧
    (∀ (L : Int) (fhs : List (List String)), "" ∈ find_words L fhs → L = 0) := by
  have key : ∀ t : String, accept 0 (clean t) = true ↔
      t.data.filter isAsciiLetter = [] := by
    intro t
    simp only [accept, beq_iff_eq, Nat.cast_eq_zero]
    show (t.data.filter isAsciiLetter).length = 0 ↔ _
    exact List.length_eq_zero
  refine ⟨?_, ?_, ?_⟩
  · intro t
    rw [key t, List.filter_eq_nil_iff]
    simp [Bool.not_eq_true]
  · intro t ht
    have h := (key t).mp ht
    show String.mk (t.data.filter isAsciiLetter) = ""
    rw [h]
  · intro L fhs hmem
    rw [find_words_eq] at hmem
    rw [List.mem_flatMap] at hmem
    obtain ⟨fh, -, hmem⟩ := hmem
    rw [List.mem_flatMap] at hmem
    obtain ⟨line, -, hmem⟩ := hmem
    simp only [lineMatches] at hmem
    have h := (List.mem_filter.mp hmem).2
    simp only [accept, beq_iff_eq] at h
    rw [← h]; rfl

/-- C6 counterexample: with the single match dog at length 3, main exits 0
but the printed line carries the index padded to width 3 with two leading
spaces, so it differs from the unpadded index-colon-word form the claim
states. -/
theorem C6_counterexample :
    (finderMain 3 [["dog"]]).exitCode = 0 ∧
    (finderMain 3 [["dog"]]).output = "  1: dog" ∧
    (finderMain 3 [["dog"]]).output ≠ "1: dog" :=
  ⟨by decide, by decide, by decide⟩

/-- C6 (amended): when at least one match is found, main exits 0 and prints
one line per match joined by newlines, each line being the 1-based index
right-aligned to a minimum width of 3, then a colon and a space, then the
word. -/
theorem C6_listing_format (L : Int) (fhs : List (List String))
    (h : find_words L fhs ≠ []) :
    (finderMain L fhs).exitCode = 0 ∧
    (finderMain L fhs).output =
      String.intercalate "\n"
        ((List.enumFrom 1 (find_words L fhs)).map fun p =>
          pad3 p.1 ++ ": " ++ p.2) := by
  constructor
  · simp [finderMain, h]
  · simp [finderMain, h, listing, listingLine]

/-- Witness for the amended C6 at length 3 on the single line dog. -/
theorem C6_listing_format_witness :
    find_words 3 [["dog"]] ≠ [] ∧
    (finderMain 3 [["dog"]]).exitCode = 0 ∧
    (finderMain 3 [["dog"]]).output =
      String.intercalate "\n"
        ((List.enumFrom 1 (find_words 3 [["dog"]])).map fun p =>
          pad3 p.1 ++ ": " ++ p.2) :=
  ⟨by decide, (C6_listing_format 3 [["dog"]] (by decide)).1,
    (C6_listing_format 3 [["dog"]] (by decide)).2⟩

/-- C7: when find_words returns no matches, main exits non-zero and its
output is exactly the no-words message with the requested length
interpolated, with no listing output. -/
theorem C7_no_matches (L : Int) (fhs : List (List String))
    (h : find_words L fhs = []) :
    (finderMain L fhs).exitCode ≠ 0 ∧
    (finderMain L fhs).output =
      "Found no words of length " ++ toString L ++ "!" := by
  constructor
  · simp [finderMain, h]
  · simp [finderMain, h]

/-- Witness for C7: the fox sentence has no six-letter cleaned token, so the
run at length 6 exits non-zero with the exact message. -/
theorem C7_no_matches_witness :
    find_words 6 [[foxLine]] = [] ∧
    (finderMain 6 [[foxLine]]).exitCode ≠ 0 ∧
    (finderMain 6 [[foxLine]]).output = "Found no words of length 6!" := by
  have h : find_words 6 [[foxLine]] = [] := by decide
  have hc := C7_no_matches 6 [[foxLine]] h
  exact ⟨h, hc.1, hc.2.trans (by decide)⟩

/-- C8: the Greeter, for any name, exits 0 and prints exactly the greeting
line for that name, and with the default name it prints the hello-world
line; the result is a function of the name alone. -/
theorem C8_greeter (name : String) :
    (helloRun name).exitCode = 0 ∧
    (helloRun name).output = "Hello, " ++ name ++ "!" ∧
    helloRun helloDefault = ⟨0, "Hello, World!"⟩ :=
  ⟨rfl, rfl, by decide⟩

/-- C9: for every negative target length, find_words returns the empty list,
since a cleaned token's length is a non-negative integer and can never equal
a negative target. -/
theorem C9_negative_length (L : Int) (hL : L < 0) (fhs : List (List String)) :
    find_words L fhs = [] := by
  rw [find_words_eq]
  rw [List.flatMap_eq_nil_iff]
  intro fh _
  rw [List.flatMap_eq_nil_iff]
  intro line _
  unfold lineMatches
  rw [List.filter_eq_nil_iff]
  intro w _
  simp only [accept, beq_iff_eq]
  intro hc
  omega

/-- Witness for C9 at length -1 on the fox sentence. -/
theorem C9_negative_length_witness :
    (-1 : Int) < 0 ∧ find_words (-1) [[foxLine]] = [] :=
  ⟨by decide, C9_negative_length (-1) (by decide) [[foxLine]]⟩

/-- C10: find_words is a list homomorphism over its sources: appending
source lists concatenates the results, and the empty source list yields the
empty result. -/
theorem C10_homomorphism (L : Int) (A B : List (List String)) :
    find_words L (A ++ B) = find_words L A ++ find_words L B ∧
    find_words L ([] : List (List String)) = [] := by
  constructor
  · rw [find_words_eq, find_words_eq, find_words_eq, List.flatMap_append]
  · rfl
